import Mathlib

/-!
Shallow embedding of the whois MCP server sources.

The authoritative implementation (the IP-aware variant) lives in
`src/whois_mcp_server/whois_server.py`; the legacy variant in
`src/whois_server.py` is embedded only for the refinement claim about the
two domain-record extractors.

Conventions of the embedding:
* XML documents are modelled as element trees (`Xml`); the external
  `xml.etree.ElementTree.fromstring` call is modelled by the `RawXml` input,
  which is either a well-formed tree or a `ParseError` with its message.
* Python dictionaries with string keys are association lists (`Dict`) kept
  in insertion order; `dinsert` reproduces Python's update-in-place /
  append-at-end semantics.
* The network call of `lookup_whois` is modelled by a `NetResult` input
  (an HTTP status code with a body, or a transport exception); timestamps
  (`datetime.now().isoformat()`) are inputs as well.
* All functions are total: the Python code catches every exception and
  converts it into a returned error value, which the model reproduces by
  construction.
-/

/-- An XML element, modelling `xml.etree.ElementTree.Element`: a tag, the
text directly contained in the element (Python `Element.text`, `none` when
absent), and the child elements in document order. -/
inductive Xml where
  | elem (tag : String) (text : Option String) (children : List Xml)

/-- The element's tag. -/
def Xml.tag : Xml → String
  | .elem t _ _ => t

/-- The element's direct text (Python `Element.text`). -/
def Xml.text : Xml → Option String
  | .elem _ x _ => x

/-- The element's children in document order. -/
def Xml.children : Xml → List Xml
  | .elem _ _ cs => cs

/-- `ElementTree` relative path search: all elements matching a path of tag
steps (`some tag`) or wildcard steps (`none`, the path component `*`), in
document order.  Python's `x.find(p)` is `(findAll p x).head?` and
`x.findall(p)` is `findAll p x`. -/
def findAll : List (Option String) → Xml → List Xml
  | [], x => [x]
  | s :: rest, x =>
    ((x.children.filter fun c =>
      match s with
      | some t => c.tag == t
      | none => true).map (findAll rest)).flatten

/-- Python `Element.findtext(tag)`: the text of the first child with the
given tag (the empty string when that child has no text), or `none` when no
such child exists. -/
def findtext (x : Xml) (t : String) : Option String :=
  ((x.children.filter fun c => c.tag == t).head?).map (fun e => e.text.getD "")

/-- The helper `get_xml_text(root, tag_name)` of the source: the first
matching child's `.text` (which may itself be Python `None`), or `None`
when the child is absent. -/
def get_xml_text (root : Xml) (tag_name : String) : Option String :=
  ((root.children.filter fun c => c.tag == tag_name).head?).bind Xml.text

/-- A Python value stored in a parsed whois record: a scalar that is either
a string or `None`, or a list of optional strings (the
`[e.text for e in ...]` comprehensions). -/
inductive Val where
  | opt (o : Option String)
  | list (xs : List (Option String))
deriving DecidableEq

/-- A Python `dict` with string keys, as an association list in insertion
order. -/
abbrev Dict := List (String × Val)

/-- `d.get(k)` / `d[k]` for the dictionaries built by the parsers. -/
def dlookup (d : Dict) (k : String) : Option Val :=
  (d.find? fun p => p.1 == k).map (·.2)

/-- `list(d.keys())`. -/
def dkeys (d : Dict) : List String := d.map (·.1)

/-- `d[k] = v` on a Python dict: an existing key keeps its position and is
overwritten, a new key is appended at the end. -/
def dinsert (d : Dict) (k : String) (v : Val) : Dict :=
  if d.any fun p => p.1 == k then
    d.map fun p => if p.1 == k then (k, v) else p
  else d ++ [(k, v)]

/-- `"error" in d`, the check `lookup_whois` uses to classify a parser or
API result. -/
def isError (d : Dict) : Bool := d.any fun p => p.1 == "error"

/-- The error dictionaries `{"error": msg, "query": query}` returned by the
parsers and by `query_whois_api`. -/
def errDict (msg q : String) : Dict :=
  [("error", .opt (some msg)), ("query", .opt (some q))]

/-- The input of a parse function: the outcome of
`xml.etree.ElementTree.fromstring` on the response text — either a
`ParseError` with its message or the root element of a well-formed
document. -/
inductive RawXml where
  | malformed (msg : String)
  | wellFormed (root : Xml)

/-- The fixed-field record literal built by `parse_domain_whois_xml` from a
found `krdomain` element. -/
def domainRecord (query : String) (krdomain : Xml) : Dict :=
  [("query", .opt (some query)),
   ("name", .opt (get_xml_text krdomain "name")),
   ("regName", .opt (get_xml_text krdomain "regName")),
   ("addr", .opt (get_xml_text krdomain "addr")),
   ("post", .opt (get_xml_text krdomain "post")),
   ("adminName", .opt (get_xml_text krdomain "adminName")),
   ("adminEmail", .opt (get_xml_text krdomain "adminEmail")),
   ("adminPhone", .opt (get_xml_text krdomain "adminPhone")),
   ("lastUpdatedDate", .opt (get_xml_text krdomain "lastUpdatedDate")),
   ("regDate", .opt (get_xml_text krdomain "regDate")),
   ("endDate", .opt (get_xml_text krdomain "endDate")),
   ("infoYN", .opt (get_xml_text krdomain "infoYN")),
   ("domainStatus", .list ((krdomain.children.filter fun c => c.tag == "domainStatus").map Xml.text)),
   ("agency", .opt (get_xml_text krdomain "agency")),
   ("agency_url", .opt (get_xml_text krdomain "agency_url")),
   ("e_regName", .opt (get_xml_text krdomain "e_regName")),
   ("e_addr", .opt (get_xml_text krdomain "e_addr")),
   ("e_adminName", .opt (get_xml_text krdomain "e_adminName")),
   ("e_agency", .opt (get_xml_text krdomain "e_agency")),
   ("dnssec", .opt (get_xml_text krdomain "dnssec")),
   ("ns1", .list ((krdomain.children.filter fun c => c.tag == "ns1").map Xml.text)),
   ("ip1", .list ((krdomain.children.filter fun c => c.tag == "ip1").map Xml.text))]

/-- `parse_domain_whois_xml` of `src/whois_mcp_server/whois_server.py`:
the domain-record extractor of the IP-aware variant. -/
def parse_domain_whois_xml (xml_content : RawXml) (query : String) : Dict :=
  match xml_content with
  | .malformed msg => errDict ("XML 파싱 오류: " ++ msg) query
  | .wellFormed root =>
    match (findAll [some "whois", some "krdomain"] root).head? with
    | none => errDict "krdomain 태그를 찾을 수 없습니다." query
    | some krdomain => domainRecord query krdomain

/-- `parse_whois_xml` of the legacy `src/whois_server.py`, embedded
independently for the refinement claim. -/
def parse_whois_xml (xml_content : RawXml) (query : String) : Dict :=
  match xml_content with
  | .malformed msg => errDict ("XML 파싱 오류: " ++ msg) query
  | .wellFormed root =>
    match (findAll [some "whois", some "krdomain"] root).head? with
    | none => errDict "krdomain 태그를 찾을 수 없습니다." query
    | some krdomain =>
      [("query", .opt (some query)),
       ("name", .opt (get_xml_text krdomain "name")),
       ("regName", .opt (get_xml_text krdomain "regName")),
       ("addr", .opt (get_xml_text krdomain "addr")),
       ("post", .opt (get_xml_text krdomain "post")),
       ("adminName", .opt (get_xml_text krdomain "adminName")),
       ("adminEmail", .opt (get_xml_text krdomain "adminEmail")),
       ("adminPhone", .opt (get_xml_text krdomain "adminPhone")),
       ("lastUpdatedDate", .opt (get_xml_text krdomain "lastUpdatedDate")),
       ("regDate", .opt (get_xml_text krdomain "regDate")),
       ("endDate", .opt (get_xml_text krdomain "endDate")),
       ("infoYN", .opt (get_xml_text krdomain "infoYN")),
       ("domainStatus", .list ((krdomain.children.filter fun c => c.tag == "domainStatus").map Xml.text)),
       ("agency", .opt (get_xml_text krdomain "agency")),
       ("agency_url", .opt (get_xml_text krdomain "agency_url")),
       ("e_regName", .opt (get_xml_text krdomain "e_regName")),
       ("e_addr", .opt (get_xml_text krdomain "e_addr")),
       ("e_adminName", .opt (get_xml_text krdomain "e_adminName")),
       ("e_agency", .opt (get_xml_text krdomain "e_agency")),
       ("dnssec", .opt (get_xml_text krdomain "dnssec")),
       ("ns1", .list ((krdomain.children.filter fun c => c.tag == "ns1").map Xml.text)),
       ("ip1", .list ((krdomain.children.filter fun c => c.tag == "ip1").map Xml.text))]

/-- The four scalar fields read at the top of `parse_ip_whois_xml`.  Note
the `query` field is `whois_elem.findtext('query')` — the document's echo
of the query — not the `query` argument. -/
def ipBase (w : Xml) : Dict :=
  [("query", .opt (findtext w "query")),
   ("queryType", .opt (findtext w "queryType")),
   ("registry", .opt (findtext w "registry")),
   ("countryCode", .opt (findtext w "countryCode"))]

/-- One of the eight `for child in whois_elem.findall(...)` loops of
`parse_ip_whois_xml`: insert every listed child under the compound key
`pre + child.tag` with the child's text as value. -/
def addChildren (d : Dict) (pre : String) (cs : List Xml) : Dict :=
  cs.foldl (fun d c => dinsert d (pre ++ c.tag) (.opt c.text)) d

/-- `parse_ip_whois_xml` of `src/whois_mcp_server/whois_server.py`. -/
def parse_ip_whois_xml (xml_content : RawXml) (query : String) : Dict :=
  match xml_content with
  | .malformed msg => errDict ("XML 파싱 오류: " ++ msg) query
  | .wellFormed root =>
    match (findAll [some "whois"] root).head? with
    | none => errDict "whois 태그를 찾을 수 없습니다." query
    | some w =>
      let r := ipBase w
      let r := addChildren r "korean_ISP_" (findAll [some "korean", some "ISP", some "netInfo", none] w)
      let r := addChildren r "korean_ISP_contact_" (findAll [some "korean", some "ISP", some "techContact", none] w)
      let r := addChildren r "korean_user_" (findAll [some "korean", some "user", some "netInfo", none] w)
      let r := addChildren r "korean_user_contact_" (findAll [some "korean", some "user", some "techContact", none] w)
      let r := addChildren r "english_ISP_" (findAll [some "english", some "ISP", some "netInfo", none] w)
      let r := addChildren r "english_ISP_contact_" (findAll [some "english", some "ISP", some "techContact", none] w)
      let r := addChildren r "english_user_" (findAll [some "english", some "user", some "netInfo", none] w)
      let r := addChildren r "english_user_contact_" (findAll [some "english", some "user", some "techContact", none] w)
      r

/-- Python `str.split(sep)` for a one-character separator, on the character
list: splitting the empty string yields one empty part, and every separator
occurrence opens a new part. -/
def splitCh (sep : Char) : List Char → List (List Char)
  | [] => [[]]
  | c :: cs =>
    if c == sep then [] :: splitCh sep cs
    else
      match splitCh sep cs with
      | [] => [[c]]
      | r :: rs => (c :: r) :: rs

/-- Python `str.split(sep)` for a one-character separator, as strings. -/
def splitStr (sep : Char) (s : String) : List String :=
  (splitCh sep s.data).map String.mk

/-- ASCII decimal digit. -/
def isDigitCh (c : Char) : Bool := '0' ≤ c && c ≤ '9'

/-- ASCII hexadecimal digit (`ipaddress._IPv6Constants._HEX_DIGITS`). -/
def isHexCh (c : Char) : Bool :=
  ('0' ≤ c && c ≤ '9') || ('a' ≤ c && c ≤ 'f') || ('A' ≤ c && c ≤ 'F')

/-- Decimal value of a digit string. -/
def octetValue (cs : List Char) : Nat :=
  cs.foldl (fun a c => a * 10 + (c.toNat - '0'.toNat)) 0

/-- Modelled from the CPython `ipaddress` module (the stdlib collaborator of
`is_ip_address`): `IPv4Address._parse_octet` — one to three ASCII digits, no
leading zero in a multi-digit octet, value at most 255. -/
def validOctet (s : String) : Bool :=
  let cs := s.data
  decide (1 ≤ cs.length) && decide (cs.length ≤ 3) && cs.all isDigitCh &&
    (decide (cs.length = 1) || !(cs.head? == some '0')) &&
    decide (octetValue cs ≤ 255)

/-- `ipaddress.IPv4Address` acceptance: exactly four valid octets separated
by dots. -/
def is_ipv4 (s : String) : Bool :=
  let parts := splitStr '.' s
  parts.length == 4 && parts.all validOctet

/-- `IPv6Address._parse_hextet`: one to four hexadecimal digits. -/
def validHextet (s : String) : Bool :=
  decide (1 ≤ s.data.length) && decide (s.data.length ≤ 4) && s.data.all isHexCh

/-- `ipaddress.IPv6Address` acceptance for the part before any `%` scope:
split on `:`; at least three parts; a dotted last part must be a valid IPv4
address and counts as two hextets; at most nine parts; at most one empty
interior part (the `::` gap), with empty edge parts only next to the gap;
the gap must cover at least one hextet; all counted parts are valid
hextets. -/
def is_ipv6_core (addr : String) : Bool :=
  let parts0 := splitStr ':' addr
  if parts0.length < 3 then false else
  let expanded : Option (List String) :=
    match parts0.getLast? with
    | some last =>
      if last.data.contains '.' then
        if is_ipv4 last then some (parts0.dropLast ++ ["0", "0"]) else none
      else some parts0
    | none => none
  match expanded with
  | none => false
  | some parts =>
    if parts.length > 9 then false else
    let n := parts.length
    let interior := (List.range n).filter fun i =>
      decide (0 < i) && decide (i < n - 1) && (parts.getD i "?" == "")
    match interior with
    | [] =>
      n == 8 && !(parts.getD 0 "?" == "") && !(parts.getD (n - 1) "?" == "") &&
        parts.all validHextet
    | [skip] =>
      let headEmpty := parts.getD 0 "?" == ""
      let lastEmpty := parts.getD (n - 1) "?" == ""
      let hi := if headEmpty then skip - 1 else skip
      let lo0 := n - skip - 1
      let lo := if lastEmpty then lo0 - 1 else lo0
      (!headEmpty || skip == 1) && (!lastEmpty || lo0 == 1) &&
        decide (hi + lo ≤ 7) &&
        (parts.take hi).all validHextet && (parts.drop (n - lo)).all validHextet
    | _ => false

/-- The helper `is_ip_address(value)` of the source: true when CPython's
`ipaddress.ip_address(value)` accepts the string as an IPv4 or IPv6 literal
(IPv6 optionally carrying a nonempty `%scope` without a further `%`). -/
def is_ip_address (value : String) : Bool :=
  if is_ipv4 value then true
  else
    match splitStr '%' value with
    | [addr] => is_ipv6_core addr
    | [addr, scope] => !(scope == "") && is_ipv6_core addr
    | _ => false

/-- The outcome of the one `client.get(...)` call inside
`query_whois_api`: an HTTP response (status code plus the body as seen by
`ET.fromstring`), or a transport exception with its type name, message and
traceback. -/
inductive NetResult where
  | response (status_code : Nat) (body : RawXml)
  | exn (ename emsg etb : String)

/-- `query_whois_api` of `src/whois_mcp_server/whois_server.py`: on HTTP
200 hand the body to the parser selected by `is_ip`, otherwise return an
HTTP-status error dictionary; a transport exception becomes an error
dictionary as well. -/
def query_whois_api (net : NetResult) (query : String) (is_ip : Bool) : Dict :=
  match net with
  | .response code body =>
    if code == 200 then
      if is_ip then parse_ip_whois_xml body query else parse_domain_whois_xml body query
    else errDict ("API 호출 실패: HTTP " ++ toString code) query
  | .exn n m tb =>
    errDict ("API 호출 중 오류: " ++ n ++ ": " ++ m ++ "\n" ++ tb) query

/-- The dictionary returned by `lookup_whois`: either the credential-missing
error `{"query": q, "status": "error", "error": msg}` (note: no
`query_time` key), or `{"query": q, "status": ..., "data": data,
"query_time": t}` whose status is `"success"` exactly when `"error"` is not
a key of `data`. -/
inductive LookupOutcome where
  | keyMissing (query : String) (errorMsg : String)
  | result (query : String) (data : Dict) (query_time : String)
deriving DecidableEq

/-- The `status` field of a `lookup_whois` outcome. -/
def outcomeStatus : LookupOutcome → String
  | .keyMissing _ _ => "error"
  | .result _ data _ => if isError data then "error" else "success"

/-- The `query` field of a `lookup_whois` outcome (`result.get("query",
"unknown")` in `bulk_whois_lookup`; both shapes carry the key). -/
def outcomeQuery : LookupOutcome → String
  | .keyMissing q _ => q
  | .result q _ _ => q

/-- `api_key = service_key or SERVICE_KEY`: a per-call key that is Python
`None` or the empty string falls back to the configured key. -/
def effectiveKey (SERVICE_KEY : String) (service_key : Option String) : String :=
  match service_key with
  | some k => if k == "" then SERVICE_KEY else k
  | none => SERVICE_KEY

/-- `lookup_whois` of `src/whois_mcp_server/whois_server.py`.  The
configured `SERVICE_KEY` (from `os.getenv` with the placeholder default),
the network outcome and the completion timestamp are explicit inputs.  The
function is total: every Python exception path is already a returned
value. -/
def lookup_whois (SERVICE_KEY : String) (service_key : Option String)
    (net : NetResult) (now : String) (query : String) : LookupOutcome :=
  let api_key := effectiveKey SERVICE_KEY service_key
  if api_key == "" || api_key == "your_service_key_here" then
    .keyMissing query "API 서비스 키가 필요합니다."
  else
    .result query (query_whois_api net query (is_ip_address query)) now

/-- The batch slicing of `bulk_whois_lookup`: for `i = 0, bs, 2*bs, ...`
the slice `items[i : i + bs]`.  For `bs ≥ 1` the head batch is
`items.take bs` and the rest recurses on `items.drop bs`. -/
def batches (bs : Nat) : List α → List (List α)
  | [] => []
  | x :: xs => (x :: xs.take (bs - 1)) :: batches bs (xs.drop (bs - 1))
termination_by l => l.length
decreasing_by
  simp only [List.length_cons, List.length_drop]
  omega

/-- The per-result branch of the collection loop in `bulk_whois_lookup`:
successes are appended to `results`, everything else contributes its query
string to `errors`.  (The `isinstance(result, Exception)` arm is
unreachable: `lookup_whois` catches every exception and returns a
dictionary, so `asyncio.gather` never yields an exception object.) -/
def tally (acc : List LookupOutcome × List String) (rs : List LookupOutcome) :
    List LookupOutcome × List String :=
  rs.foldl
    (fun a r =>
      if outcomeStatus r == "success" then (a.1 ++ [r], a.2)
      else (a.1, a.2 ++ [outcomeQuery r]))
    acc

/-- The summary dictionary returned by a completed `bulk_whois_lookup` run
(the floating-point `success_rate` field is determined by `successful` and
`total_items` and is not modelled). -/
structure BulkSummary where
  status : String
  total_items : Nat
  successful : Nat
  failed : Nat
  results : List LookupOutcome
deriving DecidableEq

/-- The outcome of one item inside `bulk_whois_lookup`: `lookup_whois`
called with no per-call key, the item's network outcome and its completion
timestamp. -/
def outcomeOf (SERVICE_KEY : String) (fetch : String → NetResult)
    (now : String → String) (item : String) : LookupOutcome :=
  lookup_whois SERVICE_KEY none (fetch item) (now item) item

/-- `bulk_whois_lookup` of `src/whois_mcp_server/whois_server.py`:
process the items in contiguous batches, collect successes and error
queries, and return the counter summary.  `batch_size = 0` reproduces the
`range()` `ValueError`, which the function catches and returns as a
top-level error.  The progress print and the inter-batch `asyncio.sleep`
have no effect on the returned value and are not modelled. -/
def bulk_whois_lookup (SERVICE_KEY : String) (fetch : String → NetResult)
    (now : String → String) (items : List String) (batch_size : Nat) :
    Except String BulkSummary :=
  if batch_size == 0 then
    .error "대량 분석 중 오류: range() arg 3 must not be zero"
  else
    let final := (batches batch_size items).foldl
      (fun acc batch => tally acc (batch.map (outcomeOf SERVICE_KEY fetch now)))
      ([], [])
    .ok
      { status := "completed"
        total_items := items.length
        successful := final.1.length
        failed := final.2.length
        results := final.1 }

/-- Insert a string into a sorted list (ascending code-point order, the
order of Python `sorted` on `str`). -/
def insertStr (s : String) : List String → List String
  | [] => [s]
  | x :: xs => if s ≤ x then s :: x :: xs else x :: insertStr s xs

/-- Insertion sort on strings: the result of Python `sorted(list(set))` on
the deduplicated key list. -/
def sortStrings : List String → List String
  | [] => []
  | x :: xs => insertStr x (sortStrings xs)

/-- The header computation of `save_results_to_csv`: the union of the data
keys of all success results (a Python `set`, modelled as deduplication),
sorted. -/
def sortedSuccessKeys (results : List LookupOutcome) : List String :=
  let ks := (results.foldl
    (fun acc o =>
      match o with
      | .result _ data _ => if isError data then acc else acc ++ dkeys data
      | .keyMissing _ _ => acc)
    []).dedup
  sortStrings ks

/-- `headers = ["query", "status", "query_time"] + sorted(list(headers))`. -/
def csvHeaders (results : List LookupOutcome) : List String :=
  ["query", "status", "query_time"] ++ sortedSuccessKeys results

/-- The row dictionary built for one result inside the CSV loop: the three
base fields via `result.get(...)` (a missing `query_time` key yields
`None`), then `row.update(result["data"])` for successes, or
`row["error"] = result.get("error")` for errors (for a `result`-shaped
error outcome the message sits inside `data`, so `result.get("error")` is
`None`). -/
def rowOf (o : LookupOutcome) : Dict :=
  match o with
  | .keyMissing q err =>
    [("query", .opt (some q)), ("status", .opt (some "error")),
     ("query_time", .opt none), ("error", .opt (some err))]
  | .result q data qt =>
    let base : Dict :=
      [("query", .opt (some q)),
       ("status", .opt (some (if isError data then "error" else "success"))),
       ("query_time", .opt (some qt))]
    if isError data then base ++ [("error", .opt none)]
    else data.foldl (fun r p => dinsert r p.1 p.2) base

/-- `csv.DictWriter.writerow` with the default `extrasaction="raise"`: a
row key outside `fieldnames` raises `ValueError`; otherwise each header
column takes the row's value, with the `restval` `None` (rendered as an
empty cell) for headers the row lacks. -/
def writerow (headers : List String) (row : Dict) : Except String (List Val) :=
  if row.all fun p => headers.contains p.1 then
    .ok (headers.map fun h => (dlookup row h).getD (.opt none))
  else .error "dict contains fields not in fieldnames"

/-- The row-writing loop: the first raising `writerow` aborts the export
(the caught exception makes the whole call return an error result). -/
def writeAllRows (headers : List String) : List LookupOutcome → Except String (List (List Val))
  | [] => .ok []
  | o :: os => do
    let r ← writerow headers (rowOf o)
    let rs ← writeAllRows headers os
    .ok (r :: rs)

/-- The observable outcome of `save_results_to_csv`: the success dictionary
together with the header line and rows written to the file, or the
top-level error dictionary's message. -/
inductive CsvResult where
  | ok (headers : List String) (rows : List (List Val)) (records_saved : Nat)
  | err (msg : String)
deriving DecidableEq

/-- `save_results_to_csv` of `src/whois_mcp_server/whois_server.py`,
restricted to inputs that are `lookup_whois` outcomes (the shapes the rest
of the server produces). -/
def save_results_to_csv (results : List LookupOutcome) : CsvResult :=
  if results.isEmpty then .err "저장할 데이터가 없습니다."
  else
    let headers := csvHeaders results
    match writeAllRows headers results with
    | .ok rows => .ok headers rows results.length
    | .error e => .err ("CSV 저장 중 오류: " ++ e)


/-- A concrete IP-whois document whose `query` echo element reads
`8.8.4.4`, used to separate the echo from the caller's query argument. -/
def c3doc : Xml :=
  .elem "response" none [.elem "whois" none [.elem "query" (some "8.8.4.4") []]]

/-- A concrete `whois` element populated only in its Korean/ISP subtree. -/
def c6w : Xml :=
  .elem "whois" none
    [.elem "query" (some "8.8.8.8") [],
     .elem "queryType" (some "IPv4") [],
     .elem "registry" (some "KRNIC") [],
     .elem "countryCode" (some "KR") [],
     .elem "korean" none
       [.elem "ISP" none
         [.elem "netInfo" none [.elem "orgName" (some "KT") []],
          .elem "techContact" none [.elem "techEmail" (some "x@y.kr") []]]]]

/-- The enclosing IP-whois response document for `c6w`. -/
def c6root : Xml := .elem "response" none [c6w]

/-! ### Helper lemmas -/

/-- Two strings with different first characters stay different when the
first is extended on the right. -/
theorem append_ne_of_head_ne (a b t : String) (ca cb : Char)
    (ha : a.data.head? = some ca) (hb : b.data.head? = some cb) (hne : ca ≠ cb) :
    a ++ t ≠ b := by
  intro h
  apply hne
  have hd := congrArg (fun s => s.data.head?) h
  simp only [String.data_append, List.head?_append] at hd
  rw [ha, hb] at hd
  simpa using hd

/-- A string whose character at position `i` differs from the one of `pre`
is no prefix of `pre ++ t`, provided `i` lies inside both. -/
theorem not_prefix_append_of_get_ne (p pre t : String) (i : Nat)
    (hip : i < p.data.length) (hipre : i < pre.data.length)
    (hne : p.data[i]? ≠ pre.data[i]?) :
    ¬ p.data <+: (pre ++ t).data := by
  intro h
  rw [String.data_append, List.prefix_iff_eq_take] at h
  apply hne
  have h2 := congrArg (fun l => l[i]?) h
  simp only at h2
  rw [List.getElem?_take_of_lt hip, List.getElem?_append_left hipre] at h2
  exact h2

/-- Concatenating the batch slices in dispatch order recovers the item
list (for a positive batch size). -/
theorem batches_flatten {α : Type} (bs : Nat) (h : 1 ≤ bs) :
    ∀ l : List α, (batches bs l).flatten = l
  | [] => by simp [batches]
  | x :: xs => by
    rw [batches]
    simp only [List.flatten_cons]
    rw [batches_flatten bs h (xs.drop (bs - 1))]
    exact congrArg (x :: ·) (List.take_append_drop (bs - 1) xs)
termination_by l => l.length
decreasing_by simp only [List.length_cons, List.length_drop]; omega

/-- Every batch slice has at most `bs` elements (for a positive batch
size). -/
theorem batches_length_le {α : Type} (bs : Nat) (h : 1 ≤ bs) :
    ∀ l : List α, ∀ b ∈ batches bs l, b.length ≤ bs
  | [] => by simp [batches]
  | x :: xs => by
    rw [batches]
    intro b hb
    rcases List.mem_cons.mp hb with hb | hb
    · subst hb
      simp only [List.length_cons]
      have := List.length_take_le (bs - 1) xs
      omega
    · exact batches_length_le bs h (xs.drop (bs - 1)) b hb
termination_by l => l.length
decreasing_by simp only [List.length_cons, List.length_drop]; omega

/-- The collection loop splits a batch's outcomes into appended success
and failure runs. -/
theorem tally_spec (rs : List LookupOutcome) (acc : List LookupOutcome × List String) :
    tally acc rs =
      (acc.1 ++ rs.filter (fun r => outcomeStatus r == "success"),
       acc.2 ++ (rs.filter (fun r => !(outcomeStatus r == "success"))).map outcomeQuery) := by
  induction rs generalizing acc with
  | nil => simp [tally]
  | cons r rs ih =>
    show tally (if outcomeStatus r == "success" then (acc.1 ++ [r], acc.2)
      else (acc.1, acc.2 ++ [outcomeQuery r])) rs = _
    by_cases hr : outcomeStatus r == "success"
    · simp [hr, ih, List.filter_cons]
    · simp only [Bool.not_eq_true] at hr
      simp [hr, ih, List.filter_cons]

/-- A list splits into the elements satisfying a predicate and those
violating it. -/
theorem filter_length_sum {α : Type} (p : α → Bool) (l : List α) :
    (l.filter p).length + (l.filter fun a => !(p a)).length = l.length := by
  induction l with
  | nil => rfl
  | cons a l ih =>
    by_cases h : p a <;> simp [List.filter_cons, h] <;> omega

/-- A key of `dinsert d k v` is a key of `d` or the inserted key. -/
theorem dkeys_dinsert_sub {d : Dict} {k : String} {v : Val} {a : String}
    (h : a ∈ dkeys (dinsert d k v)) : a ∈ dkeys d ∨ a = k := by
  unfold dinsert at h
  split at h
  · unfold dkeys at h
    simp only [List.map_map, List.mem_map, Function.comp] at h
    obtain ⟨p, hp, hpa⟩ := h
    by_cases hk : p.1 == k
    · right
      rw [if_pos hk] at hpa
      exact hpa.symm
    · left
      rw [if_neg hk] at hpa
      exact List.mem_map.mpr ⟨p, hp, hpa⟩
  · unfold dkeys at h
    simp only [List.map_append, List.mem_append, List.map_cons, List.map_nil,
      List.mem_cons, List.not_mem_nil, or_false] at h
    rcases h with h | h
    · exact Or.inl h
    · exact Or.inr h

/-- Dictionary insertion never loses a key. -/
theorem dkeys_dinsert_mem {d : Dict} {k : String} {v : Val} {a : String}
    (h : a ∈ dkeys d) : a ∈ dkeys (dinsert d k v) := by
  unfold dinsert
  split
  · unfold dkeys at h ⊢
    simp only [List.map_map, List.mem_map, Function.comp]
    obtain ⟨p, hp, hpa⟩ := List.mem_map.mp h
    by_cases hk : p.1 == k
    · refine ⟨p, hp, ?_⟩
      rw [if_pos hk]
      have : p.1 = k := by simpa using hk
      rw [← hpa, this]
    · exact ⟨p, hp, by rw [if_neg hk]; exact hpa⟩
  · unfold dkeys at h ⊢
    simp only [List.map_append, List.mem_append]
    exact Or.inl h

/-- A key of one of the compound-key insertion loops is a key of the
initial dictionary or carries the loop's prefix. -/
theorem dkeys_addChildren_sub {d : Dict} {pre : String} {cs : List Xml} {a : String}
    (h : a ∈ dkeys (addChildren d pre cs)) :
    a ∈ dkeys d ∨ ∃ t, a = pre ++ t := by
  induction cs generalizing d with
  | nil => exact Or.inl h
  | cons c cs ih =>
    rcases ih h with h2 | h2
    · rcases dkeys_dinsert_sub h2 with h3 | h3
      · exact Or.inl h3
      · exact Or.inr ⟨c.tag, h3⟩
    · exact Or.inr h2

/-- The compound-key insertion loops never lose a key. -/
theorem dkeys_addChildren_mem {d : Dict} {pre : String} {cs : List Xml} {a : String}
    (h : a ∈ dkeys d) : a ∈ dkeys (addChildren d pre cs) := by
  induction cs generalizing d with
  | nil => exact h
  | cons c cs ih => exact ih (dkeys_dinsert_mem h)

/-- A present key makes `dlookup` succeed. -/
theorem dlookup_isSome_of_mem {d : Dict} {k : String} (h : k ∈ dkeys d) :
    (dlookup d k).isSome = true := by
  unfold dlookup
  rw [Option.isSome_map']
  rw [List.find?_isSome]
  obtain ⟨p, hp, hpa⟩ := List.mem_map.mp h
  exact ⟨p, hp, by simpa using hpa⟩

/-- An error-carrying dictionary yields its message under the `error`
key. -/
theorem isError_dlookup {d : Dict} (h : isError d = true) :
    (dlookup d "error").isSome = true := by
  unfold isError at h
  rw [List.any_eq_true] at h
  obtain ⟨p, hp, hpe⟩ := h
  apply dlookup_isSome_of_mem
  exact List.mem_map.mpr ⟨p, hp, by simpa using hpe⟩

/-- A list of empty lists flattens to the empty list. -/
theorem flatten_eq_nil_of_forall {α : Type} {l : List (List α)} (h : ∀ x ∈ l, x = []) :
    l.flatten = [] := by
  induction l with
  | nil => rfl
  | cons x xs ih =>
    rw [List.flatten_cons, h x (List.mem_cons_self x xs), List.nil_append]
    exact ih fun y hy => h y (List.mem_cons_of_mem x hy)

/-- `isError` of an error dictionary. -/
theorem isError_errDict (msg q : String) : isError (errDict msg q) = true := rfl

/-- The fixed-field domain record never carries an `error` key. -/
theorem isError_domainRecord (q : String) (kr : Xml) :
    isError (domainRecord q kr) = false := rfl

/-- The domain record's `query` field is the original query argument. -/
theorem dlookup_domainRecord_query (q : String) (kr : Xml) :
    dlookup (domainRecord q kr) "query" = some (.opt (some q)) := rfl

/-- The domain record's `lastUpdatedDate` field is whatever
`get_xml_text` extracted. -/
theorem dlookup_domainRecord_lud (q : String) (kr : Xml) :
    dlookup (domainRecord q kr) "lastUpdatedDate" =
      some (.opt (get_xml_text kr "lastUpdatedDate")) := rfl

/-! ### Claim theorems -/

/-- C1: the claim says `save_results_to_csv` succeeds on every non-empty
outcome sequence, writing a failure outcome's message into an `error`
column.  The code contradicts this: headers are drawn only from success
records, so the `row["error"]` assignment makes `DictWriter.writerow`
raise `ValueError` and the whole export returns an error.  This theorem
evaluates the model at the failing input: one credential-missing failure
outcome aborts the export, because `error` is a row key but not a
header. -/
theorem save_results_to_csv_failure_row_aborts :
    save_results_to_csv [.keyMissing "example.com" "API 서비스 키가 필요합니다."] =
      .err "CSV 저장 중 오류: dict contains fields not in fieldnames" ∧
    "error" ∉ csvHeaders [.keyMissing "example.com" "API 서비스 키가 필요합니다."] ∧
    "error" ∈ dkeys (rowOf (.keyMissing "example.com" "API 서비스 키가 필요합니다.")) := by
  refine ⟨rfl, by decide, by decide⟩

/-- With a valid key, `lookup_whois` wraps the API result in a
`result`-shaped outcome. -/
theorem lookup_whois_valid (SERVICE_KEY : String) (service_key : Option String)
    (net : NetResult) (now q : String)
    (hk : (effectiveKey SERVICE_KEY service_key == "" ||
      effectiveKey SERVICE_KEY service_key == "your_service_key_here") = false) :
    lookup_whois SERVICE_KEY service_key net now q =
      .result q (query_whois_api net q (is_ip_address q)) now := by
  unfold lookup_whois
  simp only [hk, Bool.false_eq_true, if_false]

/-- C2: with a valid credential, a non-200 HTTP status or a parser-reported
error makes `lookup_whois` return (never raise) a Failure outcome of shape
`{query, status, data, query_time}`: its status is `"error"`, its data
carries the HTTP-status (resp. the parser's) error message under the
`error` key together with the original query, and the completion timestamp
is attached. -/
theorem lookup_whois_failure_outcome (SERVICE_KEY : String) (service_key : Option String)
    (now q : String)
    (hk : (effectiveKey SERVICE_KEY service_key == "" ||
      effectiveKey SERVICE_KEY service_key == "your_service_key_here") = false) :
    (∀ code body, code ≠ 200 →
      lookup_whois SERVICE_KEY service_key (.response code body) now q =
        .result q (errDict ("API 호출 실패: HTTP " ++ toString code) q) now ∧
      outcomeStatus (lookup_whois SERVICE_KEY service_key (.response code body) now q) =
        "error") ∧
    (∀ body,
      isError (if is_ip_address q then parse_ip_whois_xml body q
        else parse_domain_whois_xml body q) = true →
      lookup_whois SERVICE_KEY service_key (.response 200 body) now q =
        .result q (if is_ip_address q then parse_ip_whois_xml body q
          else parse_domain_whois_xml body q) now ∧
      outcomeStatus (lookup_whois SERVICE_KEY service_key (.response 200 body) now q) =
        "error" ∧
      (dlookup (if is_ip_address q then parse_ip_whois_xml body q
        else parse_domain_whois_xml body q) "error").isSome = true) := by
  have hapi : ∀ body, query_whois_api (.response 200 body) q (is_ip_address q) =
      (if is_ip_address q then parse_ip_whois_xml body q
        else parse_domain_whois_xml body q) := by
    intro body
    rfl
  constructor
  · intro code body hcode
    have hc : (code == 200) = false := by
      simp only [beq_eq_false_iff_ne, ne_eq]
      exact hcode
    have happ : query_whois_api (.response code body) q (is_ip_address q) =
        errDict ("API 호출 실패: HTTP " ++ toString code) q := by
      simp only [query_whois_api, hc, Bool.false_eq_true, if_false]
    constructor
    · rw [lookup_whois_valid _ _ _ _ _ hk, happ]
    · rw [lookup_whois_valid _ _ _ _ _ hk, happ]
      simp only [outcomeStatus, isError_errDict, if_true]
  · intro body herr
    refine ⟨?_, ?_, isError_dlookup herr⟩
    · rw [lookup_whois_valid _ _ _ _ _ hk, hapi]
    · rw [lookup_whois_valid _ _ _ _ _ hk]
      simp only [outcomeStatus, hapi, herr, if_true]

/-- C2 witness: a concrete valid key, a 404 response and a malformed
200-response body. -/
theorem lookup_whois_failure_outcome_witness :
    ((effectiveKey "k" none == "" ||
      effectiveKey "k" none == "your_service_key_here") = false) ∧
    (lookup_whois "k" none (.response 404 (.malformed "m")) "t" "example.com" =
      .result "example.com" (errDict "API 호출 실패: HTTP 404" "example.com") "t") ∧
    outcomeStatus (lookup_whois "k" none (.response 200 (.malformed "m")) "t"
      "example.com") = "error" ∧
    (dlookup (if is_ip_address "example.com" then
        parse_ip_whois_xml (.malformed "m") "example.com"
      else parse_domain_whois_xml (.malformed "m") "example.com") "error").isSome =
      true := by
  have hk : (effectiveKey "k" none == "" ||
      effectiveKey "k" none == "your_service_key_here") = false := rfl
  have h := lookup_whois_failure_outcome "k" none "t" "example.com" hk
  have h1 := h.1 404 (.malformed "m") (by decide)
  have h2 := h.2 (.malformed "m") (by rfl)
  exact ⟨hk, h1.1, h2.2.1, h2.2.2⟩

/-- C3 (amended): a non-error record of `parse_domain_whois_xml` always
carries the original query string under its `query` field; a record of
`parse_ip_whois_xml` always carries a `query` key, but its value is the
document's echo of the query, not necessarily the query argument. -/
theorem parser_query_field (xml_content : RawXml) (q : String) :
    (isError (parse_domain_whois_xml xml_content q) = false →
      dlookup (parse_domain_whois_xml xml_content q) "query" = some (.opt (some q))) ∧
    (dlookup (parse_ip_whois_xml xml_content q) "query").isSome = true := by
  constructor
  · intro h
    match xml_content with
    | .malformed msg =>
      rw [show parse_domain_whois_xml (.malformed msg) q =
        errDict ("XML 파싱 오류: " ++ msg) q from rfl, isError_errDict] at h
      cases h
    | .wellFormed root =>
      cases hh : (findAll [some "whois", some "krdomain"] root).head? with
      | none =>
        rw [show parse_domain_whois_xml (.wellFormed root) q =
          errDict "krdomain 태그를 찾을 수 없습니다." q by
            simp only [parse_domain_whois_xml, hh], isError_errDict] at h
        cases h
      | some kr =>
        simp only [parse_domain_whois_xml, hh, dlookup_domainRecord_query]
  · match xml_content with
    | .malformed msg => exact rfl
    | .wellFormed root =>
      cases hw : (findAll [some "whois"] root).head? with
      | none =>
        simp only [parse_ip_whois_xml, hw]
        exact rfl
      | some w =>
        simp only [parse_ip_whois_xml, hw]
        apply dlookup_isSome_of_mem
        apply dkeys_addChildren_mem
        apply dkeys_addChildren_mem
        apply dkeys_addChildren_mem
        apply dkeys_addChildren_mem
        apply dkeys_addChildren_mem
        apply dkeys_addChildren_mem
        apply dkeys_addChildren_mem
        apply dkeys_addChildren_mem
        show "query" ∈ dkeys (ipBase w)
        simp [ipBase, dkeys]

/-- C3 counterexample: on a document echoing `8.8.4.4`, the IP parser's
non-error record stores the echo under `query`, which differs from the
original query argument `1.2.3.4` — refuting the claim that every
non-error record contains the original query string. -/
theorem parse_ip_query_echo_differs :
    isError (parse_ip_whois_xml (.wellFormed c3doc) "1.2.3.4") = false ∧
    dlookup (parse_ip_whois_xml (.wellFormed c3doc) "1.2.3.4") "query" =
      some (.opt (some "8.8.4.4")) ∧
    Val.opt (some "8.8.4.4") ≠ Val.opt (some "1.2.3.4") := by
  refine ⟨rfl, rfl, by decide⟩

/-- C3 witness: both amended parts evaluated on a concrete document. -/
theorem parser_query_field_witness :
    (isError (parse_domain_whois_xml (.wellFormed (.elem "r" none
        [.elem "whois" none [.elem "krdomain" none []]])) "b.kr") = false) ∧
    (dlookup (parse_domain_whois_xml (.wellFormed (.elem "r" none
        [.elem "whois" none [.elem "krdomain" none []]])) "b.kr") "query" =
      some (.opt (some "b.kr")) ∧
    (dlookup (parse_ip_whois_xml (.wellFormed (.elem "r" none
        [.elem "whois" none [.elem "krdomain" none []]])) "b.kr") "query").isSome =
      true) := by
  have h := parser_query_field (.wellFormed (.elem "r" none
    [.elem "whois" none [.elem "krdomain" none []]])) "b.kr"
  exact ⟨rfl, h.1 rfl, h.2⟩

/-- The batch loop of `bulk_whois_lookup` appends each batch's successes
and failure queries to the running accumulators. -/
theorem bulkFold_spec (SERVICE_KEY : String) (fetch : String → NetResult)
    (now : String → String) (bss : List (List String))
    (acc : List LookupOutcome × List String) :
    bss.foldl (fun acc batch =>
        tally acc (batch.map (outcomeOf SERVICE_KEY fetch now))) acc =
      (acc.1 ++ ((bss.flatten.map (outcomeOf SERVICE_KEY fetch now)).filter
        fun r => outcomeStatus r == "success"),
       acc.2 ++ (((bss.flatten.map (outcomeOf SERVICE_KEY fetch now)).filter
        fun r => !(outcomeStatus r == "success")).map outcomeQuery)) := by
  induction bss generalizing acc with
  | nil => simp
  | cons b bss ih =>
    rw [List.foldl_cons, ih, tally_spec]
    simp [List.flatten_cons, List.map_append, List.filter_append, List.append_assoc]

/-- C4: for every non-empty item list and positive batch size,
`bulk_whois_lookup` completes with a summary whose `successful` and
`failed` counters each count every per-item outcome exactly once (as a
success or as a failure, respectively) and satisfy
`successful + failed = total_items`, with `total_items` the input
length. -/
theorem bulk_whois_lookup_counters (SERVICE_KEY : String)
    (fetch : String → NetResult) (now : String → String)
    (items : List String) (bs : Nat) (h1 : 1 ≤ bs) (_hne : items ≠ []) :
    ∃ s, bulk_whois_lookup SERVICE_KEY fetch now items bs = .ok s ∧
      s.status = "completed" ∧
      s.total_items = items.length ∧
      s.successful = ((items.map (outcomeOf SERVICE_KEY fetch now)).filter
        (fun r => outcomeStatus r == "success")).length ∧
      s.failed = ((items.map (outcomeOf SERVICE_KEY fetch now)).filter
        (fun r => !(outcomeStatus r == "success"))).length ∧
      s.successful + s.failed = s.total_items := by
  have hbs : (bs == 0) = false := by
    simp only [beq_eq_false_iff_ne, ne_eq]
    omega
  have key : bulk_whois_lookup SERVICE_KEY fetch now items bs =
      .ok { status := "completed", total_items := items.length,
            successful := ((items.map (outcomeOf SERVICE_KEY fetch now)).filter
              (fun r => outcomeStatus r == "success")).length,
            failed := (((items.map (outcomeOf SERVICE_KEY fetch now)).filter
              (fun r => !(outcomeStatus r == "success"))).map outcomeQuery).length,
            results := (items.map (outcomeOf SERVICE_KEY fetch now)).filter
              (fun r => outcomeStatus r == "success") } := by
    unfold bulk_whois_lookup
    rw [hbs]
    simp only [bulkFold_spec, batches_flatten bs h1, List.nil_append]
    rfl
  refine ⟨_, key, rfl, rfl, rfl, ?_, ?_⟩
  · exact List.length_map _ _
  · have hs := filter_length_sum (fun r => outcomeStatus r == "success")
      (items.map (outcomeOf SERVICE_KEY fetch now))
    rw [List.length_map] at hs
    simpa [List.length_map] using hs

/-- C4 witness: three items in batches of two against an all-503
upstream. -/
theorem bulk_whois_lookup_counters_witness :
    (1 ≤ 2 ∧ (["a.kr", "8.8.8.8", "b.kr"] : List String) ≠ []) ∧
    (∃ s, bulk_whois_lookup "k" (fun _ => .response 503 (.malformed "m"))
        (fun _ => "t") ["a.kr", "8.8.8.8", "b.kr"] 2 = .ok s ∧
      s.status = "completed" ∧
      s.total_items = (["a.kr", "8.8.8.8", "b.kr"] : List String).length ∧
      s.successful = (((["a.kr", "8.8.8.8", "b.kr"] : List String).map
        (outcomeOf "k" (fun _ => .response 503 (.malformed "m")) (fun _ => "t"))).filter
        (fun r => outcomeStatus r == "success")).length ∧
      s.failed = (((["a.kr", "8.8.8.8", "b.kr"] : List String).map
        (outcomeOf "k" (fun _ => .response 503 (.malformed "m")) (fun _ => "t"))).filter
        (fun r => !(outcomeStatus r == "success"))).length ∧
      s.successful + s.failed = s.total_items) :=
  ⟨⟨by decide, by decide⟩,
    bulk_whois_lookup_counters "k" (fun _ => .response 503 (.malformed "m"))
      (fun _ => "t") ["a.kr", "8.8.8.8", "b.kr"] 2 (by decide) (by decide)⟩

/-- C5: on well-formed input the domain parser fails exactly when the
`./whois/krdomain` node is absent — yielding the structural-not-found
error dictionary and never a success — while a found record node always
yields an error-free record; non-well-formed input yields the distinct
XML-parse failure message. -/
theorem parse_domain_error_taxonomy (root : Xml) (q : String) :
    ((findAll [some "whois", some "krdomain"] root).head? = none →
      parse_domain_whois_xml (.wellFormed root) q =
        errDict "krdomain 태그를 찾을 수 없습니다." q ∧
      isError (parse_domain_whois_xml (.wellFormed root) q) = true) ∧
    (∀ kr, (findAll [some "whois", some "krdomain"] root).head? = some kr →
      parse_domain_whois_xml (.wellFormed root) q = domainRecord q kr ∧
      isError (parse_domain_whois_xml (.wellFormed root) q) = false) ∧
    (∀ msg, parse_domain_whois_xml (.malformed msg) q =
        errDict ("XML 파싱 오류: " ++ msg) q ∧
      "XML 파싱 오류: " ++ msg ≠ "krdomain 태그를 찾을 수 없습니다.") := by
  refine ⟨?_, ?_, ?_⟩
  · intro h
    constructor
    · simp only [parse_domain_whois_xml, h]
    · simp only [parse_domain_whois_xml, h, isError_errDict]
  · intro kr h
    constructor
    · simp only [parse_domain_whois_xml, h]
    · simp only [parse_domain_whois_xml, h, isError_domainRecord]
  · intro msg
    refine ⟨rfl, ?_⟩
    exact append_ne_of_head_ne _ _ _ 'X' 'k' rfl rfl (by decide)

/-- C5 witness: a well-formed document with a `whois` node but no
`krdomain` node. -/
theorem parse_domain_error_taxonomy_witness :
    ((findAll [some "whois", some "krdomain"]
        (.elem "response" none [.elem "whois" none []])).head? = none) ∧
    (parse_domain_whois_xml (.wellFormed (.elem "response" none
        [.elem "whois" none []])) "a.kr" =
      errDict "krdomain 태그를 찾을 수 없습니다." "a.kr" ∧
    isError (parse_domain_whois_xml (.wellFormed (.elem "response" none
        [.elem "whois" none []])) "a.kr") = true) := by
  have hn : (findAll [some "whois", some "krdomain"]
      (Xml.elem "response" none [.elem "whois" none []])).head? = none := rfl
  exact ⟨hn, (parse_domain_error_taxonomy (.elem "response" none
    [.elem "whois" none []]) "a.kr").1 hn⟩

/-- C6: on a well-formed IP-whois document whose `whois` element has no
`english` subtree and no `user` subtree under any `korean` child, the IP
parser's record keys are exactly the four base fields plus
`korean_ISP_*`-prefixed compound keys (including the
`korean_ISP_contact_*` ones); no `english_*`, `korean_user_*` or
`english_user_*` key appears. -/
theorem parse_ip_korean_isp_keys (root w : Xml) (q : String)
    (hw : (findAll [some "whois"] root).head? = some w)
    (hE : w.children.filter (fun c => c.tag == "english") = [])
    (hU : ∀ k ∈ w.children.filter (fun c => c.tag == "korean"),
      k.children.filter (fun c => c.tag == "user") = []) :
    (∀ a ∈ dkeys (parse_ip_whois_xml (.wellFormed root) q),
      a = "query" ∨ a = "queryType" ∨ a = "registry" ∨ a = "countryCode" ∨
        ∃ t, a = "korean_ISP_" ++ t) ∧
    "query" ∈ dkeys (parse_ip_whois_xml (.wellFormed root) q) ∧
    "queryType" ∈ dkeys (parse_ip_whois_xml (.wellFormed root) q) ∧
    "registry" ∈ dkeys (parse_ip_whois_xml (.wellFormed root) q) ∧
    "countryCode" ∈ dkeys (parse_ip_whois_xml (.wellFormed root) q) ∧
    (∀ a ∈ dkeys (parse_ip_whois_xml (.wellFormed root) q),
      ¬ "english_".data <+: a.data ∧ ¬ "korean_user_".data <+: a.data ∧
        ¬ "english_user_".data <+: a.data) := by
  have hEng : ∀ rest, findAll (some "english" :: rest) w = [] := by
    intro rest
    show ((w.children.filter fun c => c.tag == "english").map (findAll rest)).flatten = []
    rw [hE]
    rfl
  have hKU : ∀ rest, findAll (some "korean" :: some "user" :: rest) w = [] := by
    intro rest
    show ((w.children.filter fun c => c.tag == "korean").map
      (findAll (some "user" :: rest))).flatten = []
    apply flatten_eq_nil_of_forall
    intro x hx
    obtain ⟨k, hk, hkx⟩ := List.mem_map.mp hx
    rw [← hkx]
    show ((k.children.filter fun c => c.tag == "user").map (findAll rest)).flatten = []
    rw [hU k hk]
    rfl
  have hr : parse_ip_whois_xml (.wellFormed root) q =
      addChildren (addChildren (ipBase w) "korean_ISP_"
          (findAll [some "korean", some "ISP", some "netInfo", none] w))
        "korean_ISP_contact_"
        (findAll [some "korean", some "ISP", some "techContact", none] w) := by
    simp only [parse_ip_whois_xml, hw]
    rw [hKU [some "netInfo", none], hKU [some "techContact", none],
        hEng [some "ISP", some "netInfo", none],
        hEng [some "ISP", some "techContact", none],
        hEng [some "user", some "netInfo", none],
        hEng [some "user", some "techContact", none]]
    rfl
  have hbase : dkeys (ipBase w) = ["query", "queryType", "registry", "countryCode"] := rfl
  have hmain : ∀ a ∈ dkeys (parse_ip_whois_xml (.wellFormed root) q),
      a = "query" ∨ a = "queryType" ∨ a = "registry" ∨ a = "countryCode" ∨
        ∃ t, a = "korean_ISP_" ++ t := by
    intro a ha
    rw [hr] at ha
    rcases dkeys_addChildren_sub ha with h1 | h1
    · rcases dkeys_addChildren_sub h1 with h2 | h2
      · rw [hbase] at h2
        simp only [List.mem_cons, List.not_mem_nil, or_false] at h2
        tauto
      · exact Or.inr (Or.inr (Or.inr (Or.inr h2)))
    · obtain ⟨t, ht⟩ := h1
      refine Or.inr (Or.inr (Or.inr (Or.inr ⟨"contact_" ++ t, ?_⟩)))
      rw [ht, show ("korean_ISP_contact_" : String) = "korean_ISP_" ++ "contact_" from rfl,
        String.append_assoc]
  refine ⟨hmain, ?_, ?_, ?_, ?_, ?_⟩
  · rw [hr]
    exact dkeys_addChildren_mem (dkeys_addChildren_mem (by rw [hbase]; simp))
  · rw [hr]
    exact dkeys_addChildren_mem (dkeys_addChildren_mem (by rw [hbase]; simp))
  · rw [hr]
    exact dkeys_addChildren_mem (dkeys_addChildren_mem (by rw [hbase]; simp))
  · rw [hr]
    exact dkeys_addChildren_mem (dkeys_addChildren_mem (by rw [hbase]; simp))
  · intro a ha
    rcases hmain a ha with h | h | h | h | ⟨t, ht⟩ <;>
      first
        | (subst h; exact ⟨by decide, by decide, by decide⟩)
        | (subst ht
           exact ⟨not_prefix_append_of_get_ne "english_" "korean_ISP_" t 0
               (by decide) (by decide) (by decide),
             not_prefix_append_of_get_ne "korean_user_" "korean_ISP_" t 7
               (by decide) (by decide) (by decide),
             not_prefix_append_of_get_ne "english_user_" "korean_ISP_" t 0
               (by decide) (by decide) (by decide)⟩)

/-- C6 witness: the concrete Korean/ISP-only document `c6root`. -/
theorem parse_ip_korean_isp_keys_witness :
    "query" ∈ dkeys (parse_ip_whois_xml (.wellFormed c6root) "8.8.8.8") ∧
    "countryCode" ∈ dkeys (parse_ip_whois_xml (.wellFormed c6root) "8.8.8.8") ∧
    "korean_ISP_orgName" ∈ dkeys (parse_ip_whois_xml (.wellFormed c6root) "8.8.8.8") ∧
    (¬ "english_".data <+: "korean_ISP_orgName".data ∧
     ¬ "korean_user_".data <+: "korean_ISP_orgName".data ∧
     ¬ "english_user_".data <+: "korean_ISP_orgName".data) := by
  have hU : ∀ k ∈ c6w.children.filter (fun c => c.tag == "korean"),
      k.children.filter (fun c => c.tag == "user") = [] := by
    intro k hk
    have hks : c6w.children.filter (fun c => c.tag == "korean") =
        [.elem "korean" none
          [.elem "ISP" none
            [.elem "netInfo" none [.elem "orgName" (some "KT") []],
             .elem "techContact" none [.elem "techEmail" (some "x@y.kr") []]]]] := rfl
    rw [hks, List.mem_singleton] at hk
    rw [hk]
    rfl
  have h := parse_ip_korean_isp_keys c6root c6w "8.8.8.8" rfl rfl hU
  refine ⟨h.2.1, h.2.2.2.2.1, ?_, h.2.2.2.2.2 "korean_ISP_orgName" (by decide)⟩
  decide

/-- C7: for every item list and batch size at least one, the contiguous
batch slices taken by `bulk_whois_lookup` each hold at most `batch_size`
items, and concatenating them in dispatch order reproduces the original
list — order and multiset are preserved across batch boundaries. -/
theorem batches_preserve_items {α : Type} (items : List α) (bs : Nat) (h : 1 ≤ bs) :
    (∀ b ∈ batches bs items, b.length ≤ bs) ∧ (batches bs items).flatten = items :=
  ⟨batches_length_le bs h items, batches_flatten bs h items⟩

/-- C7 witness: three items in batches of two. -/
theorem batches_preserve_items_witness :
    1 ≤ 2 ∧
      ((∀ b ∈ batches 2 ["a", "b", "c"], b.length ≤ 2) ∧
        (batches 2 ["a", "b", "c"]).flatten = ["a", "b", "c"]) :=
  ⟨by decide, batches_preserve_items ["a", "b", "c"] 2 (by decide)⟩

/-- C8: a well-formed domain document whose `krdomain` node is found but
which lacks a `lastUpdatedDate` element still parses into an error-free
record, with the `lastUpdatedDate` field present and explicitly absent
(Python `None`); the missing element affects only this field. -/
theorem parse_domain_missing_lastUpdatedDate (root kr : Xml) (q : String)
    (hfind : (findAll [some "whois", some "krdomain"] root).head? = some kr)
    (hmiss : kr.children.filter (fun c => c.tag == "lastUpdatedDate") = []) :
    isError (parse_domain_whois_xml (.wellFormed root) q) = false ∧
    dlookup (parse_domain_whois_xml (.wellFormed root) q) "lastUpdatedDate" =
      some (.opt none) := by
  constructor
  · simp only [parse_domain_whois_xml, hfind, isError_domainRecord]
  · simp only [parse_domain_whois_xml, hfind, dlookup_domainRecord_lud]
    unfold get_xml_text
    rw [hmiss]
    rfl

/-- C8 witness: a concrete `krdomain` document without a
`lastUpdatedDate` element. -/
theorem parse_domain_missing_lastUpdatedDate_witness :
    ((findAll [some "whois", some "krdomain"] (.elem "response" none
        [.elem "whois" none [.elem "krdomain" none
          [.elem "name" (some "a.kr") []]]])).head? =
      some (.elem "krdomain" none [.elem "name" (some "a.kr") []])) ∧
    ((Xml.elem "krdomain" none [.elem "name" (some "a.kr") []]).children.filter
      (fun c => c.tag == "lastUpdatedDate") = []) ∧
    (isError (parse_domain_whois_xml (.wellFormed (.elem "response" none
        [.elem "whois" none [.elem "krdomain" none
          [.elem "name" (some "a.kr") []]]])) "a.kr") = false ∧
    dlookup (parse_domain_whois_xml (.wellFormed (.elem "response" none
        [.elem "whois" none [.elem "krdomain" none
          [.elem "name" (some "a.kr") []]]])) "a.kr") "lastUpdatedDate" =
      some (.opt none)) :=
  ⟨rfl, rfl, parse_domain_missing_lastUpdatedDate _ _ "a.kr" rfl rfl⟩

/-- C9: when no per-call key is supplied and the configured key is empty
or the placeholder sentinel, `lookup_whois` immediately returns the
credential-missing failure outcome, independent of the network — no
network call is made. -/
theorem lookup_whois_credential_missing (SERVICE_KEY q now : String)
    (net net2 : NetResult)
    (h : SERVICE_KEY = "" ∨ SERVICE_KEY = "your_service_key_here") :
    lookup_whois SERVICE_KEY none net now q =
      .keyMissing q "API 서비스 키가 필요합니다." ∧
    lookup_whois SERVICE_KEY none net now q =
      lookup_whois SERVICE_KEY none net2 now q := by
  rcases h with h | h <;> subst h <;> exact ⟨rfl, rfl⟩

/-- C9 witness: the placeholder sentinel with two different network
outcomes. -/
theorem lookup_whois_credential_missing_witness :
    ("your_service_key_here" = "" ∨
      ("your_service_key_here" : String) = "your_service_key_here") ∧
    (lookup_whois "your_service_key_here" none
        (.response 200 (.malformed "m")) "t" "example.com" =
      .keyMissing "example.com" "API 서비스 키가 필요합니다." ∧
    lookup_whois "your_service_key_here" none
        (.response 200 (.malformed "m")) "t" "example.com" =
      lookup_whois "your_service_key_here" none (.exn "a" "b" "c") "t" "example.com") :=
  ⟨Or.inr rfl,
    lookup_whois_credential_missing "your_service_key_here" "example.com" "t"
      (.response 200 (.malformed "m")) (.exn "a" "b" "c") (Or.inr rfl)⟩

/-- C10: the legacy domain extractor `parse_whois_xml` and the IP-aware
variant's `parse_domain_whois_xml` are extensionally equal: on every
document and query they return identical dictionaries, success records and
error results alike. -/
theorem parse_whois_xml_eq_parse_domain_whois_xml :
    ∀ (xml_content : RawXml) (query : String),
      parse_whois_xml xml_content query = parse_domain_whois_xml xml_content query :=
  fun _ _ => rfl
